import Mathlib

/-!
Verification of the pimp_my_ride multi-architecture emulation bridge.

Shallow embedding of src/pimp_my_ride.py (class PimpMyRide) and
src/target/emulated_target.py (class EmulatedTargetX86_64) together with
src/target/target.py (class Target).

Modelling conventions:
* Machine integers and addresses are Nat; the engine (unicorn) and the
  disassembler (capstone) are opaque collaborators, modelled by explicit
  state (register file, byte memory, mapping list) with total operations;
  engine-internal failures (unmapped access inside the engine) are outside
  the modelled layer, as the spec treats the engine as opaque.
* Python exceptions are modelled with Except String; a function that can
  raise returns Except, a function that cannot returns a plain value.
* Python dicts keyed by strings are association lists looked up with
  List.lookup (first match), matching dict.get; Python list.append is
  `++ [x]`; list.remove is List.erase (first occurrence).
* Numeric constants of the unicorn bindings (UC_*) are fixed to their
  values in the unicorn 1.x python bindings (the values the source's own
  comments record where present).
-/

set_option maxRecDepth 8192

/-- Default page size, 4KB (PAGE_SIZE in pimp_my_ride.py). -/
def PAGE_SIZE : Nat := 0x1000

/-- Calling-convention selector COMPILE_GCC. -/
def COMPILE_GCC : Nat := 0

/-- Calling-convention selector COMPILE_MSVC. -/
def COMPILE_MSVC : Nat := 1

/-! Unicorn architecture and mode constants. -/

def UC_ARCH_ARM : Nat := 1
def UC_ARCH_ARM64 : Nat := 2
def UC_ARCH_MIPS : Nat := 3
def UC_ARCH_X86 : Nat := 4

def UC_MODE_LITTLE_ENDIAN : Nat := 0
def UC_MODE_BIG_ENDIAN : Nat := 0x40000000
def UC_MODE_ARM : Nat := 0
def UC_MODE_THUMB : Nat := 16
def UC_MODE_16 : Nat := 2
def UC_MODE_32 : Nat := 4
def UC_MODE_64 : Nat := 8
def UC_MODE_MIPS32 : Nat := 4
def UC_MODE_MIPS64 : Nat := 8

def UC_PROT_ALL : Nat := 7
def UC_HOOK_CODE : Nat := 4

/-! Unicorn x86 register ids (unicorn 1.x x86_const). -/

def UC_X86_REG_RAX : Nat := 35
def UC_X86_REG_RBP : Nat := 36
def UC_X86_REG_RBX : Nat := 37
def UC_X86_REG_RCX : Nat := 38
def UC_X86_REG_RDI : Nat := 39
def UC_X86_REG_RDX : Nat := 40
def UC_X86_REG_RIP : Nat := 41
def UC_X86_REG_RSI : Nat := 43
def UC_X86_REG_RSP : Nat := 44
def UC_X86_REG_R8 : Nat := 106
def UC_X86_REG_R9 : Nat := 107
def UC_X86_REG_R10 : Nat := 108
def UC_X86_REG_R11 : Nat := 109
def UC_X86_REG_R12 : Nat := 110
def UC_X86_REG_R13 : Nat := 111
def UC_X86_REG_R14 : Nat := 112
def UC_X86_REG_R15 : Nat := 113
def UC_X86_REG_EAX : Nat := 19
def UC_X86_REG_EIP : Nat := 26
def UC_X86_REG_ESP : Nat := 30
def UC_X86_REG_AX : Nat := 3

/-! Unicorn MIPS register ids (values recorded in the source's comments). -/

def UC_MIPS_REG_PC : Nat := 1
def UC_MIPS_REG_ZERO : Nat := 2
def UC_MIPS_REG_AT : Nat := 3
def UC_MIPS_REG_V0 : Nat := 4
def UC_MIPS_REG_V1 : Nat := 5
def UC_MIPS_REG_A0 : Nat := 6
def UC_MIPS_REG_A1 : Nat := 7
def UC_MIPS_REG_A2 : Nat := 8
def UC_MIPS_REG_A3 : Nat := 9
def UC_MIPS_REG_T0 : Nat := 10
def UC_MIPS_REG_T1 : Nat := 11
def UC_MIPS_REG_T2 : Nat := 12
def UC_MIPS_REG_T3 : Nat := 13
def UC_MIPS_REG_T4 : Nat := 14
def UC_MIPS_REG_T5 : Nat := 15
def UC_MIPS_REG_T6 : Nat := 16
def UC_MIPS_REG_T7 : Nat := 17
def UC_MIPS_REG_S0 : Nat := 18
def UC_MIPS_REG_S1 : Nat := 19
def UC_MIPS_REG_S2 : Nat := 20
def UC_MIPS_REG_S3 : Nat := 21
def UC_MIPS_REG_S4 : Nat := 22
def UC_MIPS_REG_S5 : Nat := 23
def UC_MIPS_REG_S6 : Nat := 24
def UC_MIPS_REG_S7 : Nat := 25
def UC_MIPS_REG_T8 : Nat := 26
def UC_MIPS_REG_T9 : Nat := 27
def UC_MIPS_REG_K0 : Nat := 28
def UC_MIPS_REG_K1 : Nat := 29
def UC_MIPS_REG_GP : Nat := 30
def UC_MIPS_REG_SP : Nat := 31
def UC_MIPS_REG_FP : Nat := 32
def UC_MIPS_REG_RA : Nat := 33
def UC_MIPS_REG_HI : Nat := 129
def UC_MIPS_REG_LO : Nat := 130

/-! Unicorn ARM64 register ids (values recorded in the source's comments),
    and the ARM ids used by the remaining architecture branches. -/

def UC_ARM64_REG_X29 : Nat := 1
def UC_ARM64_REG_X30 : Nat := 2
def UC_ARM64_REG_SP : Nat := 4
def UC_ARM64_REG_LR : Nat := 2
def UC_ARM64_REG_PC : Nat := 260

/-- Engine id of ARM64 X-register n, for n below 29 (X0 is 199). -/
def UC_ARM64_REG_X (n : Nat) : Nat := 199 + n

/-- Engine id of ARM64 W-register n, for n below 31 (W0 is 168). -/
def UC_ARM64_REG_W (n : Nat) : Nat := 168 + n

def UC_ARM_REG_LR : Nat := 10
def UC_ARM_REG_PC : Nat := 11
def UC_ARM_REG_SP : Nat := 12
def UC_ARM_REG_R0 : Nat := 66
def UC_ARM_REG_R1 : Nat := 67
def UC_ARM_REG_R2 : Nat := 68
def UC_ARM_REG_R3 : Nat := 69

/-! Target state constants from src/target/target.py. -/

def TARGET_RUNNING : Nat := 1
def TARGET_HALTED : Nat := 2

/-- Opaque emulation-engine state (a unicorn Uc instance): register file,
byte-addressed memory, the list of mapping requests performed, and whether
emu_stop was requested.  Registers and memory are association lists where
the most recent write is first; absent entries read as zero. -/
structure Engine where
  regs : List (Nat × Nat) := []
  mem : List (Nat × Nat) := []
  mapped : List (Nat × Nat × Option Nat) := []
  stopRequested : Bool := false
deriving DecidableEq

/-- Engine reg_write. -/
def Engine.regWrite (e : Engine) (idx v : Nat) : Engine :=
  { e with regs := (idx, v) :: e.regs }

/-- Engine reg_read (unset registers read as 0). -/
def Engine.regRead (e : Engine) (idx : Nat) : Nat :=
  (e.regs.lookup idx).getD 0

/-- Engine mem_write of a byte string starting at addr. -/
def Engine.memWrite : Engine → Nat → List Nat → Engine
  | e, _, [] => e
  | e, a, b :: bs => Engine.memWrite { e with mem := (a, b) :: e.mem } (a + 1) bs

/-- Engine mem_read of size bytes starting at addr (unset bytes read 0). -/
def Engine.memRead (e : Engine) (addr size : Nat) : List Nat :=
  (List.range size).map (fun i => (e.mem.lookup (addr + i)).getD 0)

/-- Engine mem_map: records the mapping request (perm = none means the
engine's default permissions were used). -/
def Engine.memMap (e : Engine) (addr size : Nat) (perm : Option Nat) : Engine :=
  { e with mapped := e.mapped ++ [(addr, size, perm)] }

/-- Engine emu_stop. -/
def Engine.emuStop (e : Engine) : Engine :=
  { e with stopRequested := true }

/-- State of one PimpMyRide instance: the attributes assigned by
PimpMyRide.__init__ and _setup_registers.  The fields step, packWidth and
the register roles are Option because _setup_registers leaves them unset on
some (architecture, mode) combinations.  packWidth is the byte width of the
pack format character (H=2, I=4, Q=8); packLittle records pack_endian,
which every branch sets to little-endian. -/
structure Session where
  arch : Nat
  mode : Nat
  stack : Nat
  stackSize : Nat
  compiler : Nat
  packLittle : Bool := true
  step : Option Nat := none
  packWidth : Option Nat := none
  regPC : Option Nat := none
  regSP : Option Nat := none
  regRA : Option Nat := none
  regRES : Option Nat := none
  regArgs : Option (List Nat) := none
  code : Option (List Nat) := none
  startAddress : Option Nat := none
  returnAddress : Option Nat := none
  memoryAreas : List (Nat × Nat) := []
  memoryContents : List (Nat × List Nat) := []
  regsInit : List (String × Nat) := []
  hookCode : Bool := false
  breakpoints : List Nat := []
  uc : Option Engine := none
deriving DecidableEq

/-- Model of _align_address: align the specified address down to a page boundary. -/
def alignAddress (address : Nat) : Nat :=
  address / PAGE_SIZE * PAGE_SIZE

/-- Profile fields produced by _setup_registers, to be merged into the
session by the constructor.  The x86 16-bit branch of the source references
the nonexistent name UC_X86_REG_PC and therefore raises. -/
structure RegProfile where
  packLittle : Bool := true
  step : Option Nat := none
  packWidth : Option Nat := none
  regPC : Option Nat := none
  regSP : Option Nat := none
  regRA : Option Nat := none
  regRES : Option Nat := none
  regArgs : Option (List Nat) := none
deriving DecidableEq

/-- Model of _setup_registers, as a function of (architecture, mode, compiler).
Branch order and contents follow lines 304-382 of the source. -/
def setupRegistersFn (arch mode compiler : Nat) : Except String RegProfile :=
  if arch = UC_ARCH_X86 then
    if mode = UC_MODE_16 then
      -- step and pack_format are assigned, then the UC_X86_REG_PC lookup raises
      .error "NameError: name UC_X86_REG_PC is not defined"
    else if mode = UC_MODE_32 then
      .ok { step := some 4, packWidth := some 4, regPC := some UC_X86_REG_EIP,
            regSP := some UC_X86_REG_ESP, regRA := some 0,
            regRES := some UC_X86_REG_EAX, regArgs := some [] }
    else if mode = UC_MODE_64 then
      .ok { step := some 8, packWidth := some 8, regPC := some UC_X86_REG_RIP,
            regSP := some UC_X86_REG_RSP, regRA := some 0,
            regRES := some UC_X86_REG_RAX,
            regArgs :=
              if compiler = COMPILE_GCC then
                some [UC_X86_REG_RDI, UC_X86_REG_RSI, UC_X86_REG_RDX,
                      UC_X86_REG_RCX, UC_X86_REG_R8, UC_X86_REG_R9]
              else if compiler = COMPILE_MSVC then
                some [UC_X86_REG_RCX, UC_X86_REG_RDX, UC_X86_REG_R8, UC_X86_REG_R9]
              else none }
    else
      .ok { }
  else if arch = UC_ARCH_ARM then
    .ok { step := if mode = UC_MODE_ARM then some 4
                  else if mode = UC_MODE_THUMB then some 2 else none,
          packWidth := if mode = UC_MODE_ARM then some 4
                       else if mode = UC_MODE_THUMB then some 2 else none,
          regPC := some UC_ARM_REG_PC, regSP := some UC_ARM_REG_SP,
          regRA := some UC_ARM_REG_LR, regRES := some UC_ARM_REG_R0,
          regArgs := some [UC_ARM_REG_R0, UC_ARM_REG_R1, UC_ARM_REG_R2, UC_ARM_REG_R3] }
  else if arch = UC_ARCH_ARM64 then
    .ok { step := some 8, packWidth := some 8,
          regPC := some UC_ARM64_REG_PC, regSP := some UC_ARM64_REG_SP,
          regRA := some UC_ARM64_REG_LR, regRES := some (UC_ARM64_REG_X 0),
          regArgs := some [UC_ARM64_REG_X 0, UC_ARM64_REG_X 1, UC_ARM64_REG_X 2,
                           UC_ARM64_REG_X 3, UC_ARM64_REG_X 4, UC_ARM64_REG_X 5,
                           UC_ARM64_REG_X 6, UC_ARM64_REG_X 7] }
  else if arch = UC_ARCH_MIPS then
    .ok { step := if mode = UC_MODE_MIPS32 then some 4
                  else if mode = UC_MODE_MIPS64 then some 8 else none,
          packWidth := if mode = UC_MODE_MIPS32 then some 4
                       else if mode = UC_MODE_MIPS64 then some 8 else none,
          regPC := some UC_MIPS_REG_PC, regSP := some UC_MIPS_REG_SP,
          regRA := some UC_MIPS_REG_RA, regRES := some UC_MIPS_REG_V0,
          regArgs := some [UC_MIPS_REG_A0, UC_MIPS_REG_A1, UC_MIPS_REG_A2, UC_MIPS_REG_A3] }
  else
    .ok { }

/-- Build the session record from the dispatched architecture and mode plus
the _setup_registers profile (shared tail of PimpMyRide.__init__). -/
def mkSession (arch mode stack stackSize compiler : Nat) : Except String Session :=
  (setupRegistersFn arch mode compiler).map (fun p =>
    { arch := arch, mode := mode, stack := alignAddress stack,
      stackSize := stackSize, compiler := compiler,
      packLittle := p.packLittle, step := p.step, packWidth := p.packWidth,
      regPC := p.regPC, regSP := p.regSP, regRA := p.regRA,
      regRES := p.regRES, regArgs := p.regArgs })

/-- PimpMyRide.__init__: architecture-name dispatch (lines 89-161) followed
by _setup_registers.  The capstone parameters are omitted (opaque
disassembler). -/
def mkPimpMyRide (architecture : String) (bits : Nat) (isLittleEndian : Bool)
    (stack stackSize : Nat) (compiler : Nat) : Except String Session :=
  if architecture = "ppc" then
    .error "PowerPC is unsupported."
  else if architecture = "MIPS" then
    mkSession UC_ARCH_MIPS
      (if isLittleEndian then UC_MODE_MIPS32 + UC_MODE_LITTLE_ENDIAN
       else UC_MODE_MIPS32 + UC_MODE_BIG_ENDIAN) stack stackSize compiler
  else if architecture = "ARM" then
    mkSession UC_ARCH_ARM UC_MODE_ARM stack stackSize compiler
  else if architecture = "AArch64" then
    mkSession UC_ARCH_ARM64 UC_MODE_ARM stack stackSize compiler
  else if architecture = "x86" then
    if bits = 32 then mkSession UC_ARCH_X86 UC_MODE_32 stack stackSize compiler
    else if bits = 16 then mkSession UC_ARCH_X86 UC_MODE_16 stack stackSize compiler
    else .error ("Unknown " ++ toString bits ++ "bit for x86 architecture")
  else if architecture = "x64" then
    mkSession UC_ARCH_X86 UC_MODE_64 stack stackSize compiler
  else
    .error ("Unsupported architecture " ++ architecture)

/-- add_memory_content: rejects empty content (the error path of the source
references an undefined name and raises NameError instead). -/
def addMemoryContent (st : Session) (address : Nat) (content : List Nat) :
    Except String Session :=
  if content.length = 0 then .error "NameError: name size is not defined"
  else .ok { st with memoryContents := st.memoryContents ++ [(address, content)] }

/-- add_memory_area: rejects a size of zero (sizes are nonnegative here;
the source rejects size below or equal to 0). -/
def addMemoryArea (st : Session) (address size : Nat) : Except String Session :=
  if size = 0 then .error ("Invalid memory area size specified (" ++ toString size ++ ")")
  else .ok { st with memoryAreas := st.memoryAreas ++ [(address, size)] }

/-- Property setter for start_address. -/
def setStartAddress (st : Session) (address : Nat) : Session :=
  { st with startAddress := some address }

/-- Property setter for return_address. -/
def setReturnAddress (st : Session) (address : Nat) : Session :=
  { st with returnAddress := some address }

/-- init_register: store the initial value of the named register. -/
def initRegister (st : Session) (register : String) (value : Nat) : Session :=
  { st with regsInit := st.regsInit ++ [(register, value)] }

/-- trace_instructions / add_code_hook: record that the built-in code hook
was installed under UC_HOOK_CODE. -/
def traceInstructions (st : Session) : Session :=
  { st with hookCode := true }

/-- set_breakpoint: appends the address to the breakpoint list. -/
def setBreakpoint (st : Session) (addr : Nat) : Session :=
  { st with breakpoints := st.breakpoints ++ [addr] }

/-- remove_breakpoint: removes the first occurrence of the address if
present; otherwise leaves the list unchanged. -/
def removeBreakpoint (st : Session) (addr : Nat) : Session :=
  if addr ∈ st.breakpoints then { st with breakpoints := st.breakpoints.erase addr }
  else st

/-- Model of __is_valid_memory_range: true iff the range lies inside some declared
memory area or inside the stack region. -/
def isValidMemoryRange (st : Session) (startAddress endAddress : Nat) : Bool :=
  st.memoryAreas.any (fun p => decide (startAddress ≥ p.1) && decide (endAddress ≤ p.1 + p.2))
  || (decide (startAddress ≥ st.stack)
      && decide (endAddress ≤ st.stackSize * PAGE_SIZE + st.stack))

/-- read_memory: on an invalid range returns the empty string (no error is
raised); otherwise reads from the engine. -/
def readMemory (st : Session) (eng : Engine) (address size : Nat) : List Nat :=
  if isValidMemoryRange st address (address + size) then eng.memRead address size
  else []

/-- write_memory: on an invalid range returns the empty string without
touching the engine (the Bool records whether the write was performed);
otherwise writes the content into the engine. -/
def writeMemory (st : Session) (eng : Engine) (address : Nat) (content : List Nat) :
    Engine × Bool :=
  if isValidMemoryRange st address (address + content.length) then
    (eng.memWrite address content, true)
  else (eng, false)

/-- MIPS branch of the _reg_map table. -/
def mipsRegMap : List (String × Nat) :=
  [("zero", UC_MIPS_REG_ZERO), ("at", UC_MIPS_REG_AT), ("v0", UC_MIPS_REG_V0),
   ("v1", UC_MIPS_REG_V1), ("a0", UC_MIPS_REG_A0), ("a1", UC_MIPS_REG_A1),
   ("a2", UC_MIPS_REG_A2), ("a3", UC_MIPS_REG_A3), ("t0", UC_MIPS_REG_T0),
   ("t1", UC_MIPS_REG_T1), ("t2", UC_MIPS_REG_T2), ("t3", UC_MIPS_REG_T3),
   ("t4", UC_MIPS_REG_T4), ("t5", UC_MIPS_REG_T5), ("t6", UC_MIPS_REG_T6),
   ("t7", UC_MIPS_REG_T7), ("s0", UC_MIPS_REG_S0), ("s1", UC_MIPS_REG_S1),
   ("s2", UC_MIPS_REG_S2), ("s3", UC_MIPS_REG_S3), ("s4", UC_MIPS_REG_S4),
   ("s5", UC_MIPS_REG_S5), ("s6", UC_MIPS_REG_S6), ("s7", UC_MIPS_REG_S7),
   ("t8", UC_MIPS_REG_T8), ("t9", UC_MIPS_REG_T9), ("k0", UC_MIPS_REG_K0),
   ("k1", UC_MIPS_REG_K1), ("gp", UC_MIPS_REG_GP), ("sp", UC_MIPS_REG_SP),
   ("fp", UC_MIPS_REG_FP), ("ra", UC_MIPS_REG_RA), ("hi", UC_MIPS_REG_HI),
   ("lo", UC_MIPS_REG_LO), ("pc", UC_MIPS_REG_PC)]

/-- AArch64 branch of the _reg_map table. -/
def arm64RegMap : List (String × Nat) :=
  ((List.range 29).map (fun n => ("r" ++ toString n, UC_ARM64_REG_X n)))
  ++ [("r29", UC_ARM64_REG_X29), ("r30", UC_ARM64_REG_X30),
      ("r31", UC_ARM64_REG_SP), ("sp", UC_ARM64_REG_SP), ("pc", UC_ARM64_REG_PC)]

/-- x64 branch of the _reg_map table.  NOTE: the source binds the name
"rdi" to UC_X86_REG_RSI and "rsi" to UC_X86_REG_RDI (lines 585-586). -/
def x64RegMap : List (String × Nat) :=
  [("rax", UC_X86_REG_RAX), ("rbx", UC_X86_REG_RBX), ("rcx", UC_X86_REG_RCX),
   ("rdx", UC_X86_REG_RDX), ("rdi", UC_X86_REG_RSI), ("rsi", UC_X86_REG_RDI),
   ("rbp", UC_X86_REG_RBP), ("rsp", UC_X86_REG_RSP), ("rip", UC_X86_REG_RIP),
   ("r8", UC_X86_REG_R8), ("r9", UC_X86_REG_R9), ("r10", UC_X86_REG_R10),
   ("r11", UC_X86_REG_R11), ("r12", UC_X86_REG_R12), ("r13", UC_X86_REG_R13),
   ("r14", UC_X86_REG_R14), ("r15", UC_X86_REG_R15)]

/-- ARM-mode branch of the _reg_map table (built from ARM64 W-register ids,
as in the source). -/
def armRegMap : List (String × Nat) :=
  ((List.range 29).map (fun n => ("r" ++ toString n, UC_ARM64_REG_W n)))
  ++ [("r29", UC_ARM64_REG_W 29), ("r30", UC_ARM64_REG_W 30),
      ("r31", UC_ARM64_REG_SP), ("sp", UC_ARM64_REG_SP), ("pc", UC_ARM64_REG_PC)]

/-- Model of _reg_map: map a register name to the engine register index.  An absent
name yields the sentinel 0x11223344 via dict.get's default; unimplemented
(architecture, mode) branches raise. -/
def regMapFn (st : Session) (regName : String) : Except String Nat :=
  if st.arch = UC_ARCH_MIPS then
    .ok ((mipsRegMap.lookup regName).getD 0x11223344)
  else if st.arch = UC_ARCH_ARM64 then
    .ok ((arm64RegMap.lookup regName).getD 0x11223344)
  else if st.arch = UC_ARCH_X86 then
    if st.mode = UC_MODE_16 then .error "Register map not implemented"
    else if st.mode = UC_MODE_32 then .error "Register map not implemented"
    else if st.mode = UC_MODE_64 then
      .ok ((x64RegMap.lookup regName).getD 0x11223344)
    else .error "AttributeError: NoneType object has no attribute get"
  else if st.arch = UC_ARCH_ARM then
    if st.mode = UC_MODE_ARM then
      .ok ((armRegMap.lookup regName).getD 0x11223344)
    else if st.mode = UC_MODE_THUMB then
      .error "Register map for ARM thumb-mode not implemented"
    else .error "AttributeError: NoneType object has no attribute get"
  else .error "Register map not implemented"

/-- read_register: resolve the name through _reg_map, then read the engine
register. -/
def readRegister (st : Session) (eng : Engine) (regName : String) : Except String Nat :=
  (regMapFn st regName).map eng.regRead

/-- write_register: resolve the name through _reg_map, then write the
engine register. -/
def writeRegister (st : Session) (eng : Engine) (register : String) (value : Nat) :
    Except String Engine :=
  (regMapFn st register).map (fun idx => eng.regWrite idx value)

/-- The page-aligned mapping requests that __initialize_memory issues, in
order: the stack first (engine-default permissions), then each declared
area with base aligned down and size computed as align(size) plus one page,
with UC_PROT_ALL permissions. -/
def initializeMemoryMappings (st : Session) : List (Nat × Nat × Option Nat) :=
  (st.stack, st.stackSize * PAGE_SIZE, none)
  :: st.memoryAreas.map (fun p =>
       (alignAddress p.1, alignAddress p.2 + PAGE_SIZE, some UC_PROT_ALL))

/-- The stack-pointer preset written by __initialize_memory (line 398). -/
def initialStackPointer (st : Session) : Nat :=
  st.stack + st.stackSize * PAGE_SIZE

/-- The engine-construction part of init(): fresh engine, then
__initialize_memory (stack map, stack zero-fill, SP preset, area maps,
content writes), then __initialize_hooks (engine-side hook installation is
opaque), then __initialize_registers (write_register for every
init_register entry). -/
def initializeEngine (st : Session) : Except String Engine :=
  let eng : Engine := {}
  let stackBytes := st.stackSize * PAGE_SIZE
  let eng := eng.memMap st.stack stackBytes none
  let eng := (writeMemory st eng st.stack (List.replicate stackBytes 0)).1
  match st.regSP with
  | none => .error "AttributeError: PimpMyRide object has no attribute REG_SP"
  | some spReg =>
    let eng := eng.regWrite spReg (initialStackPointer st)
    let eng := st.memoryAreas.foldl
      (fun e p => e.memMap (alignAddress p.1) (alignAddress p.2 + PAGE_SIZE)
        (some UC_PROT_ALL)) eng
    let eng := st.memoryContents.foldl
      (fun e p => (writeMemory st e p.1 p.2).1) eng
    st.regsInit.foldlM
      (fun e p => (regMapFn st p.1).map (fun idx => e.regWrite idx p.2)) eng

/-- init(): parameter checks of lines 243-259 (the mode-is-None check never
fires once the constructor has run, since mode is always a number), then
engine creation and memory/hook/register initialization.  There is no
already-initialized check: a repeated call simply re-creates the engine. -/
def Session.init (st : Session) : Except String Session :=
  if st.arch = 0 then .error "Architecture not specified"
  else if st.startAddress.isNone then .error "Start address not specified"
  else if st.returnAddress.isNone then .error "Return address not specified"
  else if st.memoryAreas.isEmpty then .error "No memory areas specified"
  else if st.memoryContents.isEmpty then .error "No memory contents specified"
  else (initializeEngine st).map (fun eng => { st with uc := some eng })

/-- Outcome of start(): what propagates to the caller and whether the
diagnostic register dump (__show_regs) ran. -/
structure StartOutcome where
  raised : Option String := none
  regsShown : Bool := false
deriving DecidableEq

/-- start(): runs the engine; an engine-reported UcError is caught, logged,
and the registers are dumped for diagnostics, after which the method
returns normally because the re-raise (line 302) is commented out.  The
engine-run result is supplied by the opaque engine. -/
def start (_st : Session) (emuResult : Except Nat Unit) : StartOutcome :=
  match emuResult with
  | .ok _ => { raised := none, regsShown := false }
  | .error _ => { raised := none, regsShown := true }

/-- Outcome of one invocation of the __code_callback trace hook: whether
emu_stop was requested, the result of invoking each registered breakpoint
callback with the hit address (in registration order; empty when no
breakpoint was hit), and the new cached start_address. -/
structure CodeCbOut (β : Type) where
  engineStopped : Bool
  invoked : List β
  newStart : Nat
deriving DecidableEq

/-- Model of __code_callback: the built-in instruction-trace callback.  The
diagnostic register dump and the memory read feeding the disassembler have
no modelled effect; the disassembly result is supplied by the opaque
disassembler as a list of (mnemonic, operands) pairs.  The current PC is
re-read through the architecture-specific name (raising for the
architectures whose PC path is unimplemented); the first disassembled
instruction is inspected (IndexError when the disassembly is empty); then,
if the traced address is in the breakpoint list, emu_stop is requested and
every registered callback is invoked with the address, in registration
order.  Only engine errors (UcError) are caught by the handler at the
bottom of the method; the errors modelled here are plain exceptions that
propagate. -/
def codeCallback {β : Type} (st : Session) (eng : Engine) (address _size : Nat)
    (disasm : List (String × String)) (cbs : List (Nat → β)) :
    Except String (CodeCbOut β) := do
  let newPc ←
    if st.arch = UC_ARCH_MIPS then
      readRegister st eng "pc"
    else if st.arch = UC_ARCH_X86 then
      if st.mode = UC_MODE_16 then Except.error "get PC map not implemented"
      else if st.mode = UC_MODE_32 then Except.error "get PC not implemented"
      else if st.mode = UC_MODE_64 then readRegister st eng "rip"
      else Except.error "NameError: name new_pc is not defined"
    else Except.error "get PC not implemented for current architecture"
  match disasm.head? with
  | none => Except.error "IndexError: list index out of range"
  | some _ =>
    if address ∈ st.breakpoints then
      Except.ok { engineStopped := true, invoked := cbs.map (fun cb => cb address),
                  newStart := newPc }
    else
      Except.ok { engineStopped := false, invoked := [], newStart := newPc }

/-- State of the debug-target adapter (Target / EmulatedTargetX86_64):
protocol state plus the pack parameters copied from the session at
construction. -/
structure TargetSt where
  state : Option Nat := none
  endianLittle : Bool := true
  packWidth : Nat := 8
  step : Nat := 8
deriving DecidableEq

/-- Target.__init__: registers the session's breakpoint callback (the
callback list is modelled explicitly where needed) and copies pack_endian,
pack_format and step from the session; raises AttributeError when
_setup_registers left them unset. -/
def mkTarget (emu : Session) : Except String TargetSt :=
  match emu.packWidth, emu.step with
  | some w, some s =>
    .ok { state := none, endianLittle := emu.packLittle, packWidth := w, step := s }
  | _, _ => .error "AttributeError: PimpMyRide object has no attribute pack_format"

/-- breakpoint_callback of EmulatedTargetX86_64: transitions the target to
TARGET_HALTED. -/
def breakpointCallback (t : TargetSt) (_address : Nat) : TargetSt :=
  { t with state := some TARGET_HALTED }

/-- halt(): transitions to TARGET_HALTED and requests the session to stop
(PimpMyRide.stop is a no-op). -/
def Target.halt (t : TargetSt) : TargetSt :=
  { t with state := some TARGET_HALTED }

/-- resume(count): transitions to TARGET_RUNNING and delegates to
start(count). -/
def Target.resume (t : TargetSt) : TargetSt :=
  { t with state := some TARGET_RUNNING }

/-- Names of the registers exposed to the protocol, in the order of
regs_general in EmulatedTargetX86_64 (register_list is built from it in
declaration order). -/
def regsGeneralNames : List String :=
  ["rax", "rcx", "rbx", "rdx", "rsi", "rdi", "rbp", "rsp",
   "r8", "r9", "r10", "r11", "r12", "r13", "r14", "r15", "rip"]

/-- Little-endian base-256 digits of v, w bytes (semantics of
struct.pack for an unsigned fixed-width format). -/
def leBytes : Nat → Nat → List Nat
  | 0, _ => []
  | w + 1, v => v % 256 :: leBytes w (v / 256)

/-- Value of a little-endian byte string (semantics of struct.unpack for
one unsigned fixed-width field). -/
def leVal (bs : List Nat) : Nat :=
  bs.foldr (fun b acc => b + 256 * acc) 0

/-- struct.pack of one unsigned w-byte value with the given endianness;
raises struct.error when the value does not fit. -/
def structPack (little : Bool) (w v : Nat) : Except String (List Nat) :=
  if v < 256 ^ w then
    .ok (if little then leBytes w v else (leBytes w v).reverse)
  else .error "struct.error: argument out of range"

/-- struct.unpack of a homogeneous sequence of unsigned w-byte
little-endian fields. -/
def structUnpackLE (w : Nat) (bs : List Nat) : List Nat :=
  if h : w = 0 ∨ bs.length = 0 then []
  else leVal (bs.take w) :: structUnpackLE w (bs.drop w)
termination_by bs.length
decreasing_by
  simp only [not_or] at h
  simp only [List.length_drop]
  omega

/-- struct.unpack of a homogeneous sequence of unsigned w-byte big-endian
fields. -/
def structUnpackBE (w : Nat) (bs : List Nat) : List Nat :=
  if h : w = 0 ∨ bs.length = 0 then []
  else leVal ((bs.take w).reverse) :: structUnpackBE w (bs.drop w)
termination_by bs.length
decreasing_by
  simp only [not_or] at h
  simp only [List.length_drop]
  omega

/-- Lowercase hex digit character for a value below 16. -/
def hexDigitChar (d : Nat) : Char :=
  if d < 10 then Char.ofNat (48 + d) else Char.ofNat (87 + d)

/-- Two-character lowercase hex encoding of one byte. -/
def byteToHex (b : Nat) : List Char :=
  [hexDigitChar (b / 16), hexDigitChar (b % 16)]

/-- str.encode of a byte string with the hex codec (lowercase), as used by
getRegisterContext. -/
def hexEncode (bs : List Nat) : List Char :=
  bs.flatMap byteToHex

/-- Value of one hex digit character, either case. -/
def hexCharVal (c : Char) : Option Nat :=
  if 48 ≤ c.toNat ∧ c.toNat ≤ 57 then some (c.toNat - 48)
  else if 97 ≤ c.toNat ∧ c.toNat ≤ 102 then some (c.toNat - 87)
  else if 65 ≤ c.toNat ∧ c.toNat ≤ 70 then some (c.toNat - 55)
  else none

/-- Modelled from the spec: hexDecode from gdbserver.utility (imported by
emulated_target.py but not part of src/) decodes a hex string back to the
byte string it encodes — the spec describes set_register_context as the
inverse operation of register_context, whose blob is hex-encoded.  Odd
length or a non-hex character raises. -/
def hexDecode : List Char → Except String (List Nat)
  | [] => .ok []
  | c1 :: c2 :: rest =>
    match hexCharVal c1, hexCharVal c2 with
    | some h, some l => (hexDecode rest).map (fun bs => (16 * h + l) :: bs)
    | _, _ => .error "TypeError: Non-hexadecimal digit found"
  | [_] => .error "TypeError: Odd-length string"

/-- Accumulating loop of getRegisterContext: for each exposed register,
read it through the session (hence through _reg_map), pack it with the
target's endianness and width, hex-encode, and append to the response. -/
def getRegisterContextLoop (t : TargetSt) (emu : Session) (eng : Engine) :
    List String → List Char → Except String (List Char)
  | [], resp => .ok resp
  | name :: names, resp => do
    let regValue ← readRegister emu eng name
    let packed ← structPack t.endianLittle t.packWidth regValue
    getRegisterContextLoop t emu eng names (resp ++ hexEncode packed)

/-- getRegisterContext: hexadecimal dump of the exposed registers in
register_list order. -/
def getRegisterContext (t : TargetSt) (emu : Session) (eng : Engine) :
    Except String (List Char) :=
  getRegisterContextLoop t emu eng regsGeneralNames []

/-- Write loop of setRegisterContext: the i-th unpacked value goes to the
i-th register of regs_general via the session's write_register; more values
than exposed registers raises IndexError, fewer leaves the remaining
registers untouched (the loop runs over the values). -/
def setRegisterContextLoop (emu : Session) :
    Engine → List Nat → List String → Except String Engine
  | eng, [], _ => .ok eng
  | _, _ :: _, [] => .error "IndexError: list index out of range"
  | eng, v :: vs, name :: names =>
    (writeRegister emu eng name v).bind
      (fun e => setRegisterContextLoop emu e vs names)

/-- setRegisterContext: hex-decode the blob, unpack it as consecutive
fixed-width integers of the target's step and endianness (struct.error when
the byte length is not a multiple of the width), then write each value to
the corresponding exposed register. -/
def setRegisterContext (t : TargetSt) (emu : Session) (eng : Engine)
    (data : List Char) : Except String Engine := do
  let bytes ← hexDecode data
  if bytes.length % t.step ≠ 0 then .error "struct.error: unpack size mismatch"
  else
    let values := if t.endianLittle then structUnpackLE t.step bytes
                  else structUnpackBE t.step bytes
    setRegisterContextLoop emu eng values regsGeneralNames

deriving instance DecidableEq for Except

/-- Session produced by the constructor for x64, GCC convention, stack at
0x70000000 of 4 pages. -/
def sessionX64 : Session :=
  { arch := UC_ARCH_X86, mode := UC_MODE_64, stack := 0x70000000, stackSize := 4,
    compiler := COMPILE_GCC, step := some 8, packWidth := some 8,
    regPC := some UC_X86_REG_RIP, regSP := some UC_X86_REG_RSP, regRA := some 0,
    regRES := some UC_X86_REG_RAX,
    regArgs := some [UC_X86_REG_RDI, UC_X86_REG_RSI, UC_X86_REG_RDX,
                     UC_X86_REG_RCX, UC_X86_REG_R8, UC_X86_REG_R9] }

/-- The x64 demo session with one declared code area and its content plus
start and return addresses, ready for init(). -/
def sessionC1 : Session :=
  { sessionX64 with memoryAreas := [(0x1000, 0x100)],
                    memoryContents := [(0x1000, [0xc3])],
                    startAddress := some 0x1000, returnAddress := some 0x1001 }

/-- The demo x64 session is exactly what the constructor produces. -/
theorem sessionX64_from_constructor :
    mkPimpMyRide "x64" 64 true 0x70000000 4 COMPILE_GCC = .ok sessionX64 := by decide

/-- C1: the spec requires read_memory and write_memory to fail with
OutOfBounds on a range not contained in a declared area or the stack, and
never to return an empty success value.  The code instead returns the empty
string on an invalid range: at the failing input (range 0x5000-0x5010,
outside the only declared area 0x1000-0x1100 and the stack at 0x70000000),
read_memory returns empty and write_memory performs nothing and returns
empty; no error is raised.  For a range fully inside the declared area the
operations do succeed. -/
theorem read_write_memory_invalid_range_returns_empty :
    isValidMemoryRange sessionC1 0x5000 0x5010 = false
    ∧ readMemory sessionC1 { } 0x5000 0x10 = []
    ∧ writeMemory sessionC1 { } 0x5000 [1, 2, 3] = ({ }, false)
    ∧ isValidMemoryRange sessionC1 0x10f0 0x1110 = false
    ∧ readMemory sessionC1 { } 0x10f0 0x20 = []
    ∧ isValidMemoryRange sessionC1 0x1000 0x1010 = true
    ∧ readMemory sessionC1 { } 0x1000 0x10 = List.replicate 0x10 0
    ∧ (writeMemory sessionC1 { } 0x1000 [1, 2, 3]).2 = true := by decide

/-- C2: the spec requires register-name lookup to be case-insensitive and
to fail with UnknownRegister for absent names.  The code's _reg_map is
case-sensitive and returns the sentinel id 0x11223344 for any absent name
(dict.get default, line 648): "RAX" and "bogus" both silently resolve to
the sentinel, and read/write through it silently touch a wrong register. -/
theorem reg_map_unknown_name_returns_sentinel :
    regMapFn sessionX64 "rax" = .ok UC_X86_REG_RAX
    ∧ regMapFn sessionX64 "RAX" = .ok 0x11223344
    ∧ regMapFn sessionX64 "bogus" = .ok 0x11223344
    ∧ readRegister sessionX64 { } "bogus" = .ok 0
    ∧ writeRegister sessionX64 { } "bogus" 7 = .ok { regs := [(0x11223344, 7)] } := by
  decide

/-- C3: the spec requires each mapped region to be a page-aligned superset
of its declared area and the mapped regions to be pairwise
non-overlapping.  The code computes the mapped size as align(size) plus one
page (line 404, marked FIXME "horrible kludge"), so for the declared area
(0x800, 0x900) it maps [0x0, 0x1000), which does not cover the area's end
0x1100; and two small areas on the same page both map [0x0, 0x1000),
overlapping each other. -/
theorem initialize_memory_mapping_not_superset :
    initializeMemoryMappings { sessionX64 with memoryAreas := [(0x800, 0x900)] }
      = [(0x70000000, 0x4000, none), (0x0, 0x1000, some UC_PROT_ALL)]
    ∧ ¬ (0x800 + 0x900 ≤ 0x0 + 0x1000)
    ∧ initializeMemoryMappings { sessionX64 with memoryAreas := [(0x0, 0x10), (0x20, 0x10)] }
      = [(0x70000000, 0x4000, none), (0x0, 0x1000, some UC_PROT_ALL),
         (0x0, 0x1000, some UC_PROT_ALL)] := by decide

/-- C5: the spec requires an engine-reported execution error during start()
to surface as a typed EmulationFault after a diagnostic register snapshot.
The code catches the engine error, dumps the registers (__show_regs), and
returns normally: the re-raise at line 302 is commented out, so the caller
receives no error at all. -/
theorem start_swallows_engine_error :
    start sessionC1 (Except.error 6) = { raised := none, regsShown := true }
    ∧ start sessionC1 (Except.ok ()) = { raised := none, regsShown := false } := by
  decide

/-- C8 counterexample: setting the same breakpoint twice does not leave the
breakpoint collection equal to setting it once — set_breakpoint appends
unconditionally, so the address is duplicated. -/
theorem set_breakpoint_twice_duplicates :
    (setBreakpoint (setBreakpoint sessionX64 0x1000) 0x1000).breakpoints
      ≠ (setBreakpoint sessionX64 0x1000).breakpoints := by decide

/-- C8 (amended): set_breakpoint appends the address even when it is
already present, so duplicates accumulate and breakpoint addresses are not
unique; membership (the check used by the trace callback) is nevertheless
unaffected by a duplicate set; and remove_breakpoint of a non-member
address is a no-op that raises no error. -/
theorem breakpoint_ops_behavior (st : Session) (a x : Nat) :
    (setBreakpoint st a).breakpoints = st.breakpoints ++ [a]
    ∧ (x ∈ (setBreakpoint (setBreakpoint st a) a).breakpoints
        ↔ x ∈ (setBreakpoint st a).breakpoints)
    ∧ (a ∉ st.breakpoints → removeBreakpoint st a = st) := by
  refine ⟨rfl, ?_, ?_⟩
  · simp only [setBreakpoint, List.mem_append, List.mem_singleton]
    tauto
  · intro h
    simp [removeBreakpoint, h]

/-- C8 witness: removing the never-set address 0x2000 from the demo session
is a no-op. -/
theorem breakpoint_ops_behavior_witness :
    (0x2000 ∉ sessionX64.breakpoints) ∧ removeBreakpoint sessionX64 0x2000 = sessionX64 :=
  ⟨by decide, (breakpoint_ops_behavior sessionX64 0x2000 0x2000).2.2 (by decide)⟩

/-- C9: in x64 mode the name table binds "rdi" to the engine id of RSI and
"rsi" to the engine id of RDI, read_register and write_register on these
names therefore access the swapped engine registers for every engine state
and value, and register-context serialization (built on read_register)
inherits the swap: an engine whose RSI holds 0x11 serializes 0x11 into the
"rdi" slot (index 5) of the context blob. -/
theorem x64_reg_map_swaps_rdi_rsi :
    regMapFn sessionX64 "rdi" = .ok UC_X86_REG_RSI
    ∧ regMapFn sessionX64 "rsi" = .ok UC_X86_REG_RDI
    ∧ (∀ eng : Engine, readRegister sessionX64 eng "rdi" = .ok (eng.regRead UC_X86_REG_RSI))
    ∧ (∀ eng : Engine, readRegister sessionX64 eng "rsi" = .ok (eng.regRead UC_X86_REG_RDI))
    ∧ (∀ (eng : Engine) (v : Nat),
        writeRegister sessionX64 eng "rdi" v = .ok (eng.regWrite UC_X86_REG_RSI v))
    ∧ (∀ (eng : Engine) (v : Nat),
        writeRegister sessionX64 eng "rsi" v = .ok (eng.regWrite UC_X86_REG_RDI v))
    ∧ getRegisterContext { } sessionX64 { regs := [(UC_X86_REG_RSI, 0x11)] }
      = .ok (hexEncode ((List.replicate 5 (0 : Nat) ++ 0x11 :: List.replicate 11 0).flatMap
          (leBytes 8))) :=
  ⟨by decide, by decide, fun _ => rfl, fun _ => rfl, fun _ _ => rfl, fun _ _ => rfl,
   by decide⟩

/-- Fields of a session built by mkSession: the stack is stored aligned,
the stack size is stored as given, and no memory areas are declared yet. -/
theorem mkSession_ok_fields (a m s z c : Nat) (st : Session)
    (h : mkSession a m s z c = .ok st) :
    st.stack = alignAddress s ∧ st.stackSize = z ∧ st.memoryAreas = [] := by
  unfold mkSession at h
  cases hp : setupRegistersFn a m c with
  | error e => rw [hp] at h; simp [Except.map] at h
  | ok p =>
    rw [hp] at h
    simp only [Except.map] at h
    cases h
    exact ⟨rfl, rfl, rfl⟩

/-- C10: the constructor aligns the supplied stack base down to a page
boundary before storing it, and all later stack computations use the
aligned base: the first mapping request issued at init is the stack at the
aligned base, the stack-pointer preset is aligned base plus
stack_size * PAGE_SIZE, range validation accepts exactly that region, and
for an unaligned requested base the stored stack base is strictly below the
requested address. -/
theorem stack_alignment_invariants (architecture : String) (bits : Nat)
    (le : Bool) (stackReq stackSz comp : Nat) (st : Session)
    (h : mkPimpMyRide architecture bits le stackReq stackSz comp = .ok st) :
    st.stack = alignAddress stackReq
    ∧ (initializeMemoryMappings st).head? = some (st.stack, stackSz * PAGE_SIZE, none)
    ∧ initialStackPointer st = alignAddress stackReq + stackSz * PAGE_SIZE
    ∧ isValidMemoryRange st (alignAddress stackReq)
        (alignAddress stackReq + stackSz * PAGE_SIZE) = true
    ∧ (stackReq % PAGE_SIZE ≠ 0 → st.stack < stackReq) := by
  have hf : st.stack = alignAddress stackReq ∧ st.stackSize = stackSz
      ∧ st.memoryAreas = [] := by
    unfold mkPimpMyRide at h
    repeat' split at h
    all_goals first
      | exact mkSession_ok_fields _ _ _ _ _ _ h
      | simp at h
  obtain ⟨h1, h2, h3⟩ := hf
  refine ⟨h1, ?_, ?_, ?_, ?_⟩
  · simp [initializeMemoryMappings, h2]
  · simp [initialStackPointer, h1, h2]
  · simp only [isValidMemoryRange, h1, h2, h3, List.any_nil, Bool.false_or,
      Bool.and_eq_true, decide_eq_true_eq, ge_iff_le]
    omega
  · intro hne
    rw [h1]
    simp only [alignAddress, PAGE_SIZE] at *
    omega

/-- C10 witness: requesting an unaligned stack base 0x70000800 yields the
aligned base 0x70000000 and all derived stack facts at that input. -/
theorem stack_alignment_invariants_witness :
    mkPimpMyRide "x64" 64 true 0x70000800 4 COMPILE_GCC = .ok sessionX64
    ∧ (sessionX64.stack = alignAddress 0x70000800
       ∧ (initializeMemoryMappings sessionX64).head?
           = some (sessionX64.stack, 4 * PAGE_SIZE, none)
       ∧ initialStackPointer sessionX64 = alignAddress 0x70000800 + 4 * PAGE_SIZE
       ∧ isValidMemoryRange sessionX64 (alignAddress 0x70000800)
           (alignAddress 0x70000800 + 4 * PAGE_SIZE) = true
       ∧ (0x70000800 % PAGE_SIZE ≠ 0 → sessionX64.stack < 0x70000800)) :=
  ⟨by decide,
   stack_alignment_invariants "x64" 64 true 0x70000800 4 COMPILE_GCC sessionX64
     (by decide)⟩

/-- The x64 demo session with a one-page stack (small enough to evaluate
init() concretely). -/
def sessionDemoSmall : Session :=
  { sessionC1 with stackSize := 1 }

/-- The session state after one successful init() on sessionDemoSmall. -/
def sessionDemoInit : Session :=
  (Session.init sessionDemoSmall).toOption.getD sessionDemoSmall

/-- C7 counterexample: a fully configured session reachable from the
constructor and the declaration calls runs init() successfully twice in a
row — the second call does not fail with AlreadyInitialized (no such check
exists; the engine is simply re-created and re-committed). -/
theorem init_twice_succeeds_concrete :
    (do
      let s0 ← mkPimpMyRide "x64" 64 true 0x70000000 1 COMPILE_GCC
      let s1 ← addMemoryArea s0 0x1000 0x100
      let s2 ← addMemoryContent s1 0x1000 [0xc3]
      pure (setReturnAddress (setStartAddress s2 0x1000) 0x1001))
      = Except.ok sessionDemoSmall
    ∧ ((Session.init sessionDemoSmall).bind Session.init).isOk = true := by decide

/-- C7 (amended): init() is not one-shot — whenever init() succeeds once,
calling init() again on the resulting session succeeds as well,
re-creating the engine and re-committing memory, hooks and registers
instead of raising AlreadyInitialized. -/
theorem init_twice_succeeds (st st' : Session) (h : Session.init st = .ok st') :
    ∃ st'', Session.init st' = .ok st'' := by
  unfold Session.init at h
  by_cases h1 : st.arch = 0
  · rw [if_pos h1] at h; exact absurd h (by simp)
  rw [if_neg h1] at h
  by_cases h2 : st.startAddress.isNone = true
  · rw [if_pos h2] at h; exact absurd h (by simp)
  rw [if_neg h2] at h
  by_cases h3 : st.returnAddress.isNone = true
  · rw [if_pos h3] at h; exact absurd h (by simp)
  rw [if_neg h3] at h
  by_cases h4 : st.memoryAreas.isEmpty = true
  · rw [if_pos h4] at h; exact absurd h (by simp)
  rw [if_neg h4] at h
  by_cases h5 : st.memoryContents.isEmpty = true
  · rw [if_pos h5] at h; exact absurd h (by simp)
  rw [if_neg h5] at h
  cases he : initializeEngine st with
  | error e => rw [he] at h; exact absurd h (by simp [Except.map])
  | ok eng =>
    rw [he] at h
    simp only [Except.map] at h
    injection h with h
    subst h
    refine ⟨{ st with uc := some eng }, ?_⟩
    have hie : initializeEngine { st with uc := some eng } = initializeEngine st := rfl
    unfold Session.init
    rw [hie, he]
    simp [h1, h2, h3, h4, h5, Except.map]

/-- C7 witness: the amended statement at the concrete demo session. -/
theorem init_twice_succeeds_witness :
    Session.init sessionDemoSmall = .ok sessionDemoInit
    ∧ ∃ st'', Session.init sessionDemoInit = .ok st'' :=
  ⟨by rfl, init_twice_succeeds sessionDemoSmall sessionDemoInit (by rfl)⟩

/-- Session produced by the constructor for ARM (ARM mode). -/
def sessionARM : Session :=
  { arch := UC_ARCH_ARM, mode := UC_MODE_ARM, stack := 0x70000000, stackSize := 4,
    compiler := COMPILE_GCC, step := some 4, packWidth := some 4,
    regPC := some UC_ARM_REG_PC, regSP := some UC_ARM_REG_SP,
    regRA := some UC_ARM_REG_LR, regRES := some UC_ARM_REG_R0,
    regArgs := some [UC_ARM_REG_R0, UC_ARM_REG_R1, UC_ARM_REG_R2, UC_ARM_REG_R3] }

/-- C4 counterexample: on an ARM session with a breakpoint at the traced
address and a registered callback, the trace callback raises ("get PC not
implemented for current architecture", an exception the hook's
engine-error handler does not catch) before it ever reaches the breakpoint
check, so the engine is not stopped and no breakpoint callback is invoked
— the claim's unconditional dispatch fails for this reachable input. -/
theorem code_callback_arm_breakpoint_raises :
    mkPimpMyRide "ARM" 32 true 0x70000000 4 COMPILE_GCC = .ok sessionARM
    ∧ 0x1000 ∈ (setBreakpoint sessionARM 0x1000).breakpoints
    ∧ codeCallback (setBreakpoint sessionARM 0x1000) { } 0x1000 4
        [("mov", "r0, r0")] ([fun a => a] : List (Nat → Nat))
      = .error "get PC not implemented for current architecture" := by decide

/-- C4 (amended): for the architectures whose PC-read path the trace
callback implements (MIPS, and x86 in 64-bit mode) and a non-empty
disassembly, whenever the traced address is in the breakpoint set the
callback requests an engine stop and invokes every registered breakpoint
callback with that address, in registration order; and the target
adapter's breakpoint callback transitions the target state to
TARGET_HALTED. -/
theorem code_callback_breakpoint_dispatch {β : Type} (st : Session)
    (eng : Engine) (address size : Nat) (disasm : List (String × String))
    (cbs : List (Nat → β)) (t : TargetSt)
    (harch : st.arch = UC_ARCH_MIPS ∨ (st.arch = UC_ARCH_X86 ∧ st.mode = UC_MODE_64))
    (hd : disasm ≠ [])
    (hbp : address ∈ st.breakpoints) :
    ∃ out, codeCallback st eng address size disasm cbs = .ok out
      ∧ out.engineStopped = true
      ∧ out.invoked = cbs.map (fun cb => cb address)
      ∧ (breakpointCallback t address).state = some TARGET_HALTED := by
  obtain ⟨d, ds, rfl⟩ : ∃ d ds, disasm = d :: ds := by
    cases disasm with
    | nil => exact absurd rfl hd
    | cons d ds => exact ⟨d, ds, rfl⟩
  rcases harch with h1 | ⟨h1, h2⟩
  · refine ⟨{ engineStopped := true, invoked := cbs.map (fun cb => cb address),
              newStart := eng.regRead UC_MIPS_REG_PC }, ?_, rfl, rfl, rfl⟩
    simp [codeCallback, h1, readRegister, regMapFn, hbp, UC_ARCH_MIPS,
      UC_ARCH_ARM64, UC_ARCH_X86, UC_ARCH_ARM, Except.map, mipsRegMap,
      UC_MIPS_REG_PC, breakpointCallback]
    rfl
  · refine ⟨{ engineStopped := true, invoked := cbs.map (fun cb => cb address),
              newStart := eng.regRead UC_X86_REG_RIP }, ?_, rfl, rfl, rfl⟩
    simp [codeCallback, h1, h2, readRegister, regMapFn, hbp, UC_ARCH_MIPS,
      UC_ARCH_ARM64, UC_ARCH_X86, UC_ARCH_ARM, UC_MODE_16, UC_MODE_32,
      UC_MODE_64, Except.map, x64RegMap, UC_X86_REG_RIP, breakpointCallback]
    rfl

/-- C4 witness: the amended statement at a concrete x64 session with a
breakpoint at the traced address and one registered callback. -/
theorem code_callback_breakpoint_dispatch_witness :
    ∃ out, codeCallback (setBreakpoint sessionC1 0x1000) { } 0x1000 1
        [("ret", "")] [fun a => a + 1]
      = .ok out
      ∧ out.engineStopped = true
      ∧ out.invoked = [fun a => a + 1].map (fun cb => cb 0x1000)
      ∧ (breakpointCallback { } 0x1000).state = some TARGET_HALTED :=
  code_callback_breakpoint_dispatch (setBreakpoint sessionC1 0x1000) { } 0x1000 1
    [("ret", "")] [fun a => a + 1] { }
    (Or.inr ⟨by decide, by decide⟩) (by decide) (by decide)

/-- A successful association-list lookup returns a stored pair. -/
theorem lookup_mem {l : List (Nat × Nat)} {k v : Nat}
    (h : l.lookup k = some v) : (k, v) ∈ l := by
  induction l with
  | nil => simp [List.lookup] at h
  | cons p l ih =>
    obtain ⟨k1, v1⟩ := p
    by_cases hk : k = k1
    · subst hk
      simp [List.lookup] at h
      simp [h]
    · have hb : (k == k1) = false := beq_eq_false_iff_ne.mpr hk
      simp [List.lookup, hb] at h
      exact List.mem_cons_of_mem _ (ih h)

/-- leBytes always produces exactly w bytes. -/
theorem leBytes_length (w v : Nat) : (leBytes w v).length = w := by
  induction w generalizing v with
  | zero => simp [leBytes]
  | succ w ih => simp [leBytes, ih]

/-- leBytes produces only values below 256. -/
theorem leBytes_lt_256 (w v : Nat) : ∀ b ∈ leBytes w v, b < 256 := by
  induction w generalizing v with
  | zero => simp [leBytes]
  | succ w ih =>
    intro b hb
    simp only [leBytes, List.mem_cons] at hb
    rcases hb with rfl | hb
    · exact Nat.mod_lt _ (by omega)
    · exact ih _ _ hb

/-- Unpacking the little-endian bytes of a value that fits in w bytes
recovers the value. -/
theorem leVal_leBytes (w v : Nat) (h : v < 256 ^ w) : leVal (leBytes w v) = v := by
  induction w generalizing v with
  | zero =>
    simp only [pow_zero, Nat.lt_one_iff] at h
    simp [leBytes, leVal, h]
  | succ w ih =>
    have hdiv : v / 256 < 256 ^ w := by
      rw [pow_succ, Nat.mul_comm] at h
      exact Nat.div_lt_of_lt_mul h
    simp only [leBytes, leVal, List.foldr_cons]
    have := ih (v / 256) hdiv
    simp only [leVal] at this
    rw [this]
    omega

/-- Decoding the hex digit character of a value below 16 recovers it. -/
theorem hexCharVal_hexDigitChar : ∀ d < 16, hexCharVal (hexDigitChar d) = some d := by
  decide

/-- hexDecode undoes hexEncode on a prefix of bytes below 256. -/
theorem hexDecode_hexEncode_append (bs : List Nat) (rest : List Char)
    (h : ∀ b ∈ bs, b < 256) :
    hexDecode (hexEncode bs ++ rest) = (hexDecode rest).map (fun t => bs ++ t) := by
  induction bs with
  | nil =>
    simp only [hexEncode, List.flatMap_nil, List.nil_append]
    cases hexDecode rest <;> simp [Except.map]
  | cons b bs ih =>
    have hb : b < 256 := h b (List.mem_cons_self b bs)
    have h1 : hexCharVal (hexDigitChar (b / 16)) = some (b / 16) :=
      hexCharVal_hexDigitChar _ (by omega)
    have h2 : hexCharVal (hexDigitChar (b % 16)) = some (b % 16) :=
      hexCharVal_hexDigitChar _ (by omega)
    have hbeq : 16 * (b / 16) + b % 16 = b := by omega
    simp only [hexEncode, List.flatMap_cons, byteToHex, List.cons_append,
      List.append_assoc, List.nil_append]
    simp only [hexDecode, h1, h2]
    have ih2 := ih (fun x hx => h x (List.mem_cons_of_mem _ hx))
    simp only [hexEncode] at ih2
    rw [ih2]
    cases hexDecode rest <;> simp [Except.map, hbeq]

/-- Unpacking a w-byte block followed by further bytes yields the block's
value followed by the rest's values. -/
theorem structUnpackLE_block (w : Nat) (hw : 0 < w) (b bs : List Nat)
    (hb : b.length = w) :
    structUnpackLE w (b ++ bs) = leVal b :: structUnpackLE w bs := by
  rw [structUnpackLE]
  have hcond : ¬ (w = 0 ∨ (b ++ bs).length = 0) := by
    simp only [List.length_append, not_or]
    omega
  rw [dif_neg hcond]
  have ht : (b ++ bs).take w = b := by rw [← hb]; exact List.take_left b bs
  have hd : (b ++ bs).drop w = bs := by rw [← hb]; exact List.drop_left b bs
  rw [ht, hd]

/-- Total byte length of per-name 8-byte encodings. -/
theorem flat_leBytes_length (v : String → Nat) (names : List String) :
    (names.flatMap (fun n => leBytes 8 (v n))).length = 8 * names.length := by
  induction names with
  | nil => simp
  | cons n ns ih =>
    simp only [List.flatMap_cons, List.length_append, List.length_cons,
      leBytes_length, ih]
    omega

/-- Unpacking the concatenation of per-name 8-byte encodings recovers the
per-name values, provided each fits in 64 bits. -/
theorem structUnpackLE_flat (v : String → Nat) (hv : ∀ n, v n < 2 ^ 64)
    (names : List String) :
    structUnpackLE 8 (names.flatMap (fun n => leBytes 8 (v n))) = names.map v := by
  induction names with
  | nil => rw [structUnpackLE]; simp
  | cons n ns ih =>
    simp only [List.flatMap_cons]
    rw [structUnpackLE_block 8 (by omega) _ _ (leBytes_length 8 (v n)), ih]
    rw [leVal_leBytes 8 (v n) (by
      have h256 : (256 : Nat) ^ 8 = 2 ^ 64 := by norm_num
      rw [h256]; exact hv n)]
    simp

/-- x64 register-name resolution as a plain function (lookup with the
source's sentinel default). -/
def x64RegId (n : String) : Nat :=
  (x64RegMap.lookup n).getD 0x11223344

/-- Under an x64 session, _reg_map is exactly the x64 table lookup. -/
theorem regMapFn_x64 (st : Session) (h1 : st.arch = UC_ARCH_X86)
    (h2 : st.mode = UC_MODE_64) (n : String) :
    regMapFn st n = .ok (x64RegId n) := by
  simp [regMapFn, h1, h2, x64RegId, UC_ARCH_MIPS, UC_ARCH_ARM64, UC_ARCH_X86,
    UC_ARCH_ARM, UC_MODE_16, UC_MODE_32, UC_MODE_64]

/-- Engine ids of the exposed x64 registers. -/
theorem x64RegId_values :
    x64RegId "rax" = 35 ∧ x64RegId "rcx" = 38 ∧ x64RegId "rbx" = 37
    ∧ x64RegId "rdx" = 40 ∧ x64RegId "rsi" = 39 ∧ x64RegId "rdi" = 43
    ∧ x64RegId "rbp" = 36 ∧ x64RegId "rsp" = 44 ∧ x64RegId "r8" = 106
    ∧ x64RegId "r9" = 107 ∧ x64RegId "r10" = 108 ∧ x64RegId "r11" = 109
    ∧ x64RegId "r12" = 110 ∧ x64RegId "r13" = 111 ∧ x64RegId "r14" = 112
    ∧ x64RegId "r15" = 113 ∧ x64RegId "rip" = 41 := by decide

/-- The register-context serialization loop on an x64 session appends, for
each name, the hex encoding of the 8-byte little-endian packing of the
engine value of the mapped register. -/
theorem getLoop_x64 (t : TargetSt) (st : Session) (A : Engine)
    (h1 : st.arch = UC_ARCH_X86) (h2 : st.mode = UC_MODE_64)
    (ht1 : t.endianLittle = true) (ht2 : t.packWidth = 8)
    (hlt : ∀ idx, A.regRead idx < 2 ^ 64) (names : List String) :
    ∀ acc : List Char,
      getRegisterContextLoop t st A names acc
        = .ok (acc ++ names.flatMap
            (fun n => hexEncode (leBytes 8 (A.regRead (x64RegId n))))) := by
  induction names with
  | nil => intro acc; simp [getRegisterContextLoop]
  | cons n ns ih =>
    intro acc
    have hv : A.regRead (x64RegId n) < 256 ^ 8 := by
      have h256 : (256 : Nat) ^ 8 = 2 ^ 64 := by norm_num
      rw [h256]; exact hlt _
    rw [getRegisterContextLoop]
    simp only [readRegister, regMapFn_x64 st h1 h2, Except.map, structPack,
      ht1, ht2, if_pos hv, if_true, Except.bind, Bind.bind]
    rw [ih]
    simp [List.flatMap_cons, List.append_assoc]

/-- hexDecode recovers the concatenated per-name byte blocks. -/
theorem hexDecode_flat (v : String → Nat) (names : List String) :
    hexDecode (names.flatMap (fun n => hexEncode (leBytes 8 (v n))))
      = .ok (names.flatMap (fun n => leBytes 8 (v n))) := by
  induction names with
  | nil => simp [hexDecode]
  | cons n ns ih =>
    simp only [List.flatMap_cons]
    rw [hexDecode_hexEncode_append _ _ (leBytes_lt_256 8 (v n)), ih]
    simp [Except.map]

/-- The register-context deserialization loop on an x64 session folds the
writes of the (value, name) pairs into the engine, provided no more values
than names are supplied. -/
theorem setLoop_x64 (st : Session) (h1 : st.arch = UC_ARCH_X86)
    (h2 : st.mode = UC_MODE_64) (names : List String) :
    ∀ (vs : List Nat) (eng : Engine), vs.length ≤ names.length →
      setRegisterContextLoop st eng vs names
        = .ok ((vs.zip names).foldl
            (fun e p => e.regWrite (x64RegId p.2) p.1) eng) := by
  induction names with
  | nil =>
    intro vs eng hlen
    cases vs with
    | nil => simp [setRegisterContextLoop]
    | cons v vs => simp at hlen
  | cons n ns ih =>
    intro vs eng hlen
    cases vs with
    | nil => simp [setRegisterContextLoop]
    | cons v vs =>
      rw [setRegisterContextLoop]
      simp only [writeRegister, regMapFn_x64 st h1 h2, Except.map, Except.bind]
      rw [ih vs _ (by simpa using hlen)]
      simp [List.zip_cons_cons, List.foldl_cons]

/-- C6: serializing the register context on one x64 session and
deserializing the blob on another session with the same architecture
profile reproduces the identical value in every exposed register
(round-trip), for any engine register files whose stored values fit the
64-bit register width. -/
theorem register_context_roundtrip (stA stB : Session) (tA tB : TargetSt)
    (A B : Engine)
    (hA1 : stA.arch = UC_ARCH_X86) (hA2 : stA.mode = UC_MODE_64)
    (hB1 : stB.arch = UC_ARCH_X86) (hB2 : stB.mode = UC_MODE_64)
    (htA1 : tA.endianLittle = true) (htA2 : tA.packWidth = 8)
    (htB1 : tB.endianLittle = true) (htB2 : tB.step = 8)
    (hreg : ∀ p ∈ A.regs, p.2 < 2 ^ 64) :
    ∃ blob Bfin, getRegisterContext tA stA A = .ok blob
      ∧ setRegisterContext tB stB B blob = .ok Bfin
      ∧ ∀ name ∈ regsGeneralNames,
          readRegister stB Bfin name = readRegister stA A name := by
  have hlt : ∀ idx, A.regRead idx < 2 ^ 64 := by
    intro idx
    unfold Engine.regRead
    cases hl : A.regs.lookup idx with
    | none => simp only [Option.getD_none]; positivity
    | some w =>
      simp only [Option.getD_some]
      exact hreg (idx, w) (lookup_mem hl)
  refine ⟨regsGeneralNames.flatMap
            (fun n => hexEncode (leBytes 8 (A.regRead (x64RegId n)))),
          ((regsGeneralNames.map (fun n => A.regRead (x64RegId n))).zip
              regsGeneralNames).foldl
            (fun e p => e.regWrite (x64RegId p.2) p.1) B, ?_, ?_, ?_⟩
  · unfold getRegisterContext
    rw [getLoop_x64 tA stA A hA1 hA2 htA1 htA2 hlt regsGeneralNames []]
    simp
  · unfold setRegisterContext
    rw [hexDecode_flat (fun n => A.regRead (x64RegId n)) regsGeneralNames]
    simp only [Except.bind, Bind.bind]
    have hlen136 :
        (regsGeneralNames.flatMap
          (fun n => leBytes 8 (A.regRead (x64RegId n)))).length = 136 := by
      rw [flat_leBytes_length]; rfl
    rw [hlen136, htB2]
    rw [if_neg (show ¬(136 % 8 ≠ 0) by norm_num)]
    rw [if_pos htB1]
    rw [structUnpackLE_flat (fun n => A.regRead (x64RegId n)) (fun n => hlt _)]
    rw [setLoop_x64 stB hB1 hB2 regsGeneralNames _ B (by simp)]
  · intro name hn
    obtain ⟨i1, i2, i3, i4, i5, i6, i7, i8, i9, i10, i11, i12, i13, i14, i15,
      i16, i17⟩ := x64RegId_values
    simp only [regsGeneralNames, List.mem_cons, List.not_mem_nil, or_false] at hn
    rcases hn with rfl | rfl | rfl | rfl | rfl | rfl | rfl | rfl | rfl | rfl
      | rfl | rfl | rfl | rfl | rfl | rfl | rfl
    all_goals
      simp only [readRegister, regMapFn_x64 stA hA1 hA2, regMapFn_x64 stB hB1 hB2,
        Except.map, regsGeneralNames, List.map_cons, List.map_nil,
        List.zip_cons_cons, List.zip_nil_right, List.foldl_cons, List.foldl_nil,
        i1, i2, i3, i4, i5, i6, i7, i8, i9, i10, i11, i12, i13, i14, i15, i16, i17,
        Engine.regWrite, Engine.regRead, List.lookup]
    all_goals rfl

/-- C6 witness: the round-trip at a concrete engine whose RSI holds 0x1122
and RAX holds 5, onto a fresh engine. -/
theorem register_context_roundtrip_witness :
    ∃ blob Bfin,
      getRegisterContext { } sessionX64 { regs := [(43, 0x1122), (35, 5)] }
        = .ok blob
      ∧ setRegisterContext { } sessionX64 { } blob = .ok Bfin
      ∧ ∀ name ∈ regsGeneralNames,
          readRegister sessionX64 Bfin name
            = readRegister sessionX64 { regs := [(43, 0x1122), (35, 5)] } name :=
  register_context_roundtrip sessionX64 sessionX64 { } { }
    { regs := [(43, 0x1122), (35, 5)] } { }
    (by decide) (by decide) (by decide) (by decide)
    rfl rfl rfl rfl (by decide)
